import Mathlib

/-!
Shallow embedding of the geometry-calculator library: the shape variants
(Circle, Rectangle, Triangle) with their validating constructors and setters,
and the aggregating GeometryCalculator.  Doubles are modelled as real numbers;
a throwing constructor or setter is modelled as a function into
`Except String _` carrying the source's error message.  The post-call state of
a C++ setter (unchanged on throw) is modelled by the `afterSet…` functions.
-/

namespace Geometry

open Classical

noncomputable section

/-- Error raised by constructors and setters: `std::invalid_argument msg`. -/
structure GeoError where
  msg : String
deriving DecidableEq

/-- `class Circle`, field `radius_`. -/
structure Circle where
  radius_ : ℝ

/-- `Circle::Circle(double radius)`: throws when `radius <= 0`, else the
instance stores `radius`. -/
def Circle.make (radius : ℝ) : Except GeoError Circle :=
  if radius ≤ 0 then .error ⟨"Circle radius must be positive"⟩
  else .ok ⟨radius⟩

/-- `Circle::setRadius`: throws when `radius <= 0`, else commits the new
radius. -/
def Circle.setRadius (c : Circle) (radius : ℝ) : Except GeoError Circle :=
  if radius ≤ 0 then .error ⟨"Circle radius must be positive"⟩
  else .ok { c with radius_ := radius }

/-- State of a circle after a `setRadius` call: the new state on success, the
old state when the setter threw. -/
def Circle.afterSetRadius (c : Circle) (radius : ℝ) : Circle :=
  match c.setRadius radius with
  | .ok c2 => c2
  | .error _ => c

/-- `Circle::area`: `M_PI * radius_ * radius_`. -/
def Circle.area (c : Circle) : ℝ := Real.pi * c.radius_ * c.radius_

/-- `Circle::perimeter`: `2 * M_PI * radius_`. -/
def Circle.perimeter (c : Circle) : ℝ := 2 * Real.pi * c.radius_

/-- `Circle::name`. -/
def Circle.name (_ : Circle) : String := "Circle"

/-- `Circle::isValid`: `radius_ > 0`. -/
def Circle.isValid (c : Circle) : Prop := c.radius_ > 0

/-- `class Rectangle`, fields `width_`, `height_`. -/
structure Rectangle where
  width_ : ℝ
  height_ : ℝ

/-- `Rectangle::Rectangle(double width, double height)`: throws when
`width <= 0 || height <= 0`. -/
def Rectangle.make (width height : ℝ) : Except GeoError Rectangle :=
  if width ≤ 0 ∨ height ≤ 0 then .error ⟨"Rectangle dimensions must be positive"⟩
  else .ok ⟨width, height⟩

/-- `Rectangle::setDimensions`: validates both proposed dimensions before
committing either. -/
def Rectangle.setDimensions (r : Rectangle) (width height : ℝ) :
    Except GeoError Rectangle :=
  if width ≤ 0 ∨ height ≤ 0 then .error ⟨"Rectangle dimensions must be positive"⟩
  else .ok { r with width_ := width, height_ := height }

/-- State of a rectangle after a `setDimensions` call. -/
def Rectangle.afterSetDimensions (r : Rectangle) (width height : ℝ) : Rectangle :=
  match r.setDimensions width height with
  | .ok r2 => r2
  | .error _ => r

/-- `Rectangle::area`: `width_ * height_`. -/
def Rectangle.area (r : Rectangle) : ℝ := r.width_ * r.height_

/-- `Rectangle::perimeter`: `2 * (width_ + height_)`. -/
def Rectangle.perimeter (r : Rectangle) : ℝ := 2 * (r.width_ + r.height_)

/-- `Rectangle::name`. -/
def Rectangle.name (_ : Rectangle) : String := "Rectangle"

/-- `Rectangle::isValid`: `width_ > 0 && height_ > 0`. -/
def Rectangle.isValid (r : Rectangle) : Prop := r.width_ > 0 ∧ r.height_ > 0

/-- `class Triangle`, fields `side_a_`, `side_b_`, `side_c_`. -/
structure Triangle where
  side_a_ : ℝ
  side_b_ : ℝ
  side_c_ : ℝ

/-- `Triangle::satisfiesTriangleInequality`: each pairwise sum strictly
exceeds the remaining side. -/
def Triangle.satisfiesTriangleInequality (t : Triangle) : Prop :=
  t.side_a_ + t.side_b_ > t.side_c_ ∧
  t.side_b_ + t.side_c_ > t.side_a_ ∧
  t.side_a_ + t.side_c_ > t.side_b_

/-- `Triangle::Triangle(double side_a, double side_b, double side_c)`:
throws on a non-positive side, then throws when the stored sides fail
`satisfiesTriangleInequality`. -/
def Triangle.make (side_a side_b side_c : ℝ) : Except GeoError Triangle :=
  if side_a ≤ 0 ∨ side_b ≤ 0 ∨ side_c ≤ 0 then
    .error ⟨"Triangle sides must be positive"⟩
  else if ¬ (Triangle.mk side_a side_b side_c).satisfiesTriangleInequality then
    .error ⟨"Triangle inequality not satisfied"⟩
  else .ok ⟨side_a, side_b, side_c⟩

/-- `Triangle::sides`. -/
def Triangle.sides (t : Triangle) : ℝ × ℝ × ℝ := (t.side_a_, t.side_b_, t.side_c_)

/-- `Triangle::setSides`: validates positivity, then the triangle inequality
on the proposed new sides, and only then assigns all three fields. -/
def Triangle.setSides (t : Triangle) (side_a side_b side_c : ℝ) :
    Except GeoError Triangle :=
  if side_a ≤ 0 ∨ side_b ≤ 0 ∨ side_c ≤ 0 then
    .error ⟨"Triangle sides must be positive"⟩
  else if side_a + side_b ≤ side_c ∨ side_b + side_c ≤ side_a ∨
      side_a + side_c ≤ side_b then
    .error ⟨"Triangle inequality not satisfied"⟩
  else .ok { t with side_a_ := side_a, side_b_ := side_b, side_c_ := side_c }

/-- State of a triangle after a `setSides` call. -/
def Triangle.afterSetSides (t : Triangle) (side_a side_b side_c : ℝ) : Triangle :=
  match t.setSides side_a side_b side_c with
  | .ok t2 => t2
  | .error _ => t

/-- The tolerance `epsilon = 1e-9` used by the triangle classification. -/
def epsilon : ℝ := 1e-9

/-- `Triangle::isEquilateral`: `|a−b| < ε && |b−c| < ε`. -/
def Triangle.isEquilateral (t : Triangle) : Prop :=
  |t.side_a_ - t.side_b_| < epsilon ∧ |t.side_b_ - t.side_c_| < epsilon

/-- `Triangle::isIsosceles`: `|a−b| < ε || |b−c| < ε || |a−c| < ε`. -/
def Triangle.isIsosceles (t : Triangle) : Prop :=
  |t.side_a_ - t.side_b_| < epsilon ∨ |t.side_b_ - t.side_c_| < epsilon ∨
  |t.side_a_ - t.side_c_| < epsilon

/-- `Triangle::perimeter`: `side_a_ + side_b_ + side_c_`. -/
def Triangle.perimeter (t : Triangle) : ℝ := t.side_a_ + t.side_b_ + t.side_c_

/-- `Triangle::area`: Heron's formula, `s = perimeter() / 2.0`,
`sqrt(s * (s - a) * (s - b) * (s - c))`. -/
def Triangle.area (t : Triangle) : ℝ :=
  Real.sqrt ((t.perimeter / 2) * (t.perimeter / 2 - t.side_a_) *
    (t.perimeter / 2 - t.side_b_) * (t.perimeter / 2 - t.side_c_))

/-- `Triangle::name`: classification recomputed from the current sides. -/
def Triangle.name (t : Triangle) : String :=
  if t.isEquilateral then "Equilateral Triangle"
  else if t.isIsosceles then "Isosceles Triangle"
  else "Scalene Triangle"

/-- `Triangle::isValid`: all sides positive and the triangle inequality. -/
def Triangle.isValid (t : Triangle) : Prop :=
  t.side_a_ > 0 ∧ t.side_b_ > 0 ∧ t.side_c_ > 0 ∧ t.satisfiesTriangleInequality

/-- The spec's phrase for `isEquilateral`, taken literally: all three sides
pairwise equal within tolerance `epsilon`.  Stated for comparison with the
source's `Triangle.isEquilateral`, which only compares the two adjacent
pairs. -/
def Triangle.allSidesEqualWithinEps (t : Triangle) : Prop :=
  |t.side_a_ - t.side_b_| < epsilon ∧ |t.side_b_ - t.side_c_| < epsilon ∧
  |t.side_a_ - t.side_c_| < epsilon

/-- The closed polymorphic shape set `{Circle, Rectangle, Triangle}`. -/
inductive Shape where
  | circle : Circle → Shape
  | rectangle : Rectangle → Shape
  | triangle : Triangle → Shape

/-- Virtual `Shape::area`. -/
def Shape.area : Shape → ℝ
  | .circle c => c.area
  | .rectangle r => r.area
  | .triangle t => t.area

/-- Virtual `Shape::perimeter`. -/
def Shape.perimeter : Shape → ℝ
  | .circle c => c.perimeter
  | .rectangle r => r.perimeter
  | .triangle t => t.perimeter

/-- Virtual `Shape::name`. -/
def Shape.name : Shape → String
  | .circle c => c.name
  | .rectangle r => r.name
  | .triangle t => t.name

/-- Virtual `Shape::isValid`. -/
def Shape.isValid : Shape → Prop
  | .circle c => c.isValid
  | .rectangle r => r.isValid
  | .triangle t => t.isValid

/-- `class GeometryCalculator`, field `shapes_` (insertion-ordered sequence of
owned shapes). -/
structure GeometryCalculator where
  shapes_ : List Shape

/-- A default-constructed calculator: the owned vector is empty. -/
def GeometryCalculator.empty : GeometryCalculator := ⟨[]⟩

/-- `GeometryCalculator::addShape`: a null pointer is `none`; appends exactly
when the shape is present and `isValid()`. -/
def GeometryCalculator.addShape (g : GeometryCalculator) (shape : Option Shape) :
    GeometryCalculator :=
  match shape with
  | some s => if s.isValid then ⟨g.shapes_ ++ [s]⟩ else g
  | none => g

/-- `GeometryCalculator::shapeCount`. -/
def GeometryCalculator.shapeCount (g : GeometryCalculator) : ℕ :=
  g.shapes_.length

/-- `GeometryCalculator::totalArea`: folds `total += shape->area()` from
`0.0` in storage order. -/
def GeometryCalculator.totalArea (g : GeometryCalculator) : ℝ :=
  g.shapes_.foldl (fun total s => total + s.area) 0

/-- `GeometryCalculator::totalPerimeter`: folds `total += shape->perimeter()`
from `0.0` in storage order. -/
def GeometryCalculator.totalPerimeter (g : GeometryCalculator) : ℝ :=
  g.shapes_.foldl (fun total s => total + s.perimeter) 0

/-- `GeometryCalculator::getShape`: `nullptr` (here `none`) when
`index >= shapes_.size()`, else the stored element. -/
def GeometryCalculator.getShape (g : GeometryCalculator) (index : ℕ) :
    Option Shape :=
  if h : index ≥ g.shapes_.length then none
  else some (g.shapes_.get ⟨index, by omega⟩)

/-- `GeometryCalculator::clear`. -/
def GeometryCalculator.clear (_ : GeometryCalculator) : GeometryCalculator := ⟨[]⟩

end

/-! ### C1: construction validation -/

/-- C1: for every variant, construction fails with an `InvalidParameter`
error exactly when the validation precondition is violated (Circle:
`r ≤ 0`; Rectangle: `w ≤ 0 ∨ h ≤ 0`; Triangle: a non-positive side or a
pairwise triangle-inequality violation), and on failure no instance is
produced: the success outcome exists exactly when the precondition holds. -/
theorem construction_validation (r w h a b c : ℝ) :
    ((∃ e, Circle.make r = .error e) ↔ r ≤ 0) ∧
    ((∃ ci, Circle.make r = .ok ci) ↔ ¬ r ≤ 0) ∧
    ((∃ e, Rectangle.make w h = .error e) ↔ (w ≤ 0 ∨ h ≤ 0)) ∧
    ((∃ rc, Rectangle.make w h = .ok rc) ↔ ¬ (w ≤ 0 ∨ h ≤ 0)) ∧
    ((∃ e, Triangle.make a b c = .error e) ↔
      (a ≤ 0 ∨ b ≤ 0 ∨ c ≤ 0 ∨ a + b ≤ c ∨ b + c ≤ a ∨ a + c ≤ b)) ∧
    ((∃ t, Triangle.make a b c = .ok t) ↔
      ¬ (a ≤ 0 ∨ b ≤ 0 ∨ c ≤ 0 ∨ a + b ≤ c ∨ b + c ≤ a ∨ a + c ≤ b)) := by
  have htri : ∀ a b c : ℝ, ¬ (a ≤ 0 ∨ b ≤ 0 ∨ c ≤ 0) →
      ¬ (Triangle.mk a b c).satisfiesTriangleInequality →
      (a + b ≤ c ∨ b + c ≤ a ∨ a + c ≤ b) := by
    intro a b c _ h2
    unfold Triangle.satisfiesTriangleInequality at h2
    simpa only [not_and_or, not_lt] using h2
  refine ⟨?_, ?_, ?_, ?_, ?_, ?_⟩
  · unfold Circle.make
    by_cases h1 : r ≤ 0
    · rw [if_pos h1]; exact iff_of_true (by simp) h1
    · rw [if_neg h1]; exact iff_of_false (by simp) h1
  · unfold Circle.make
    by_cases h1 : r ≤ 0
    · rw [if_pos h1]; exact iff_of_false (by simp) (not_not_intro h1)
    · rw [if_neg h1]; exact iff_of_true ⟨_, rfl⟩ h1
  · unfold Rectangle.make
    by_cases h1 : w ≤ 0 ∨ h ≤ 0
    · rw [if_pos h1]; exact iff_of_true (by simp) h1
    · rw [if_neg h1]; exact iff_of_false (by simp) h1
  · unfold Rectangle.make
    by_cases h1 : w ≤ 0 ∨ h ≤ 0
    · rw [if_pos h1]; exact iff_of_false (by simp) (not_not_intro h1)
    · rw [if_neg h1]; exact iff_of_true ⟨_, rfl⟩ h1
  · unfold Triangle.make
    by_cases h1 : a ≤ 0 ∨ b ≤ 0 ∨ c ≤ 0
    · rw [if_pos h1]; exact iff_of_true (by simp) (by tauto)
    · rw [if_neg h1]
      by_cases h2 : (Triangle.mk a b c).satisfiesTriangleInequality
      · rw [if_neg (not_not_intro h2)]
        unfold Triangle.satisfiesTriangleInequality at h2
        push_neg at h1
        refine iff_of_false (by simp) ?_
        push_neg
        exact ⟨h1.1, h1.2.1, h1.2.2, h2.1, h2.2.1, h2.2.2⟩
      · rw [if_pos h2]
        have h3 := htri a b c h1 h2
        exact iff_of_true (by simp) (by tauto)
  · unfold Triangle.make
    by_cases h1 : a ≤ 0 ∨ b ≤ 0 ∨ c ≤ 0
    · rw [if_pos h1]; exact iff_of_false (by simp) (not_not_intro (by tauto))
    · rw [if_neg h1]
      by_cases h2 : (Triangle.mk a b c).satisfiesTriangleInequality
      · rw [if_neg (not_not_intro h2)]
        unfold Triangle.satisfiesTriangleInequality at h2
        push_neg at h1
        refine iff_of_true ⟨_, rfl⟩ ?_
        push_neg
        exact ⟨h1.1, h1.2.1, h1.2.2, h2.1, h2.2.1, h2.2.2⟩
      · rw [if_pos h2]
        have h3 := htri a b c h1 h2
        exact iff_of_false (by simp) (not_not_intro (by tauto))

/-! ### C2: setter atomicity -/

theorem Triangle.setSides_error (t : Triangle) (sa sb sc : ℝ)
    (hst : sa ≤ 0 ∨ sb ≤ 0 ∨ sc ≤ 0 ∨
      sa + sb ≤ sc ∨ sb + sc ≤ sa ∨ sa + sc ≤ sb) :
    ∃ e, t.setSides sa sb sc = .error e := by
  unfold Triangle.setSides
  by_cases h1 : sa ≤ 0 ∨ sb ≤ 0 ∨ sc ≤ 0
  · rw [if_pos h1]; exact ⟨_, rfl⟩
  · rw [if_neg h1]
    have h2 : sa + sb ≤ sc ∨ sb + sc ≤ sa ∨ sa + sc ≤ sb := by tauto
    rw [if_pos h2]; exact ⟨_, rfl⟩

/-- C2: when a setter's validation fails on the proposed values, the setter
fails with the `InvalidParameter` error and the post-call state equals the
prior state, so every derived value (`area`, `perimeter`, `name`, `isValid`)
is unchanged. -/
theorem setter_atomicity (c : Circle) (rc : Rectangle) (t : Triangle)
    (r w h sa sb sc : ℝ)
    (hr : r ≤ 0) (hwh : w ≤ 0 ∨ h ≤ 0)
    (hst : sa ≤ 0 ∨ sb ≤ 0 ∨ sc ≤ 0 ∨
      sa + sb ≤ sc ∨ sb + sc ≤ sa ∨ sa + sc ≤ sb) :
    (∃ e, c.setRadius r = .error e) ∧ c.afterSetRadius r = c ∧
    (c.afterSetRadius r).area = c.area ∧
    (∃ e, rc.setDimensions w h = .error e) ∧ rc.afterSetDimensions w h = rc ∧
    (rc.afterSetDimensions w h).area = rc.area ∧
    (∃ e, t.setSides sa sb sc = .error e) ∧ t.afterSetSides sa sb sc = t ∧
    (t.afterSetSides sa sb sc).area = t.area ∧
    (t.afterSetSides sa sb sc).perimeter = t.perimeter ∧
    (t.afterSetSides sa sb sc).name = t.name ∧
    ((t.afterSetSides sa sb sc).isValid ↔ t.isValid) := by
  have hce : ∃ e, c.setRadius r = .error e := by
    unfold Circle.setRadius; rw [if_pos hr]; exact ⟨_, rfl⟩
  have hcs : c.afterSetRadius r = c := by
    obtain ⟨e, he⟩ := hce
    unfold Circle.afterSetRadius
    rw [he]
  have hre : ∃ e, rc.setDimensions w h = .error e := by
    unfold Rectangle.setDimensions; rw [if_pos hwh]; exact ⟨_, rfl⟩
  have hrs : rc.afterSetDimensions w h = rc := by
    obtain ⟨e, he⟩ := hre
    unfold Rectangle.afterSetDimensions
    rw [he]
  have hte := t.setSides_error sa sb sc hst
  have hts : t.afterSetSides sa sb sc = t := by
    obtain ⟨e, he⟩ := hte
    unfold Triangle.afterSetSides
    rw [he]
  exact ⟨hce, hcs, by rw [hcs], hre, hrs, by rw [hrs], hte, hts,
    by rw [hts], by rw [hts], by rw [hts], by rw [hts]⟩

/-- Witness for C2 at `Circle 1`/`setRadius (-1)`, `Rectangle 1 1`/
`setDimensions 0 1`, and `Triangle 3 4 5`/`setSides 1 1 3`. -/
theorem setter_atomicity_witness :
    ((-1 : ℝ) ≤ 0) ∧ ((0 : ℝ) ≤ 0 ∨ (1 : ℝ) ≤ 0) ∧
    ((1 : ℝ) ≤ 0 ∨ (1 : ℝ) ≤ 0 ∨ (3 : ℝ) ≤ 0 ∨
      (1 : ℝ) + 1 ≤ 3 ∨ (1 : ℝ) + 3 ≤ 1 ∨ (1 : ℝ) + 3 ≤ 1) ∧
    Circle.afterSetRadius ⟨1⟩ (-1) = ⟨1⟩ ∧
    Rectangle.afterSetDimensions ⟨1, 1⟩ 0 1 = ⟨1, 1⟩ ∧
    Triangle.afterSetSides ⟨3, 4, 5⟩ 1 1 3 = ⟨3, 4, 5⟩ := by
  have h1 : (-1 : ℝ) ≤ 0 := by norm_num
  have h2 : (0 : ℝ) ≤ 0 ∨ (1 : ℝ) ≤ 0 := by norm_num
  have h3 : (1 : ℝ) ≤ 0 ∨ (1 : ℝ) ≤ 0 ∨ (3 : ℝ) ≤ 0 ∨
      (1 : ℝ) + 1 ≤ 3 ∨ (1 : ℝ) + 3 ≤ 1 ∨ (1 : ℝ) + 3 ≤ 1 := by norm_num
  have h := setter_atomicity ⟨1⟩ ⟨1, 1⟩ ⟨3, 4, 5⟩ (-1) 0 1 1 1 3 h1 h2 h3
  exact ⟨h1, h2, h3, h.2.1, h.2.2.2.2.1, h.2.2.2.2.2.2.2.1⟩

/-! ### C3: the validity invariant -/

/-- C3: every successfully constructed shape satisfies `isValid`, every
setter call (failed or successful) preserves `isValid`, and every element
the aggregator stores was either already stored or is valid at the time
`addShape` appends it. -/
theorem validity_invariant :
    (∀ (r : ℝ) (c : Circle), Circle.make r = .ok c → c.isValid) ∧
    (∀ (w h : ℝ) (rc : Rectangle), Rectangle.make w h = .ok rc → rc.isValid) ∧
    (∀ (a b c : ℝ) (t : Triangle), Triangle.make a b c = .ok t → t.isValid) ∧
    (∀ (c : Circle) (r : ℝ), c.isValid → (c.afterSetRadius r).isValid) ∧
    (∀ (rc : Rectangle) (w h : ℝ), rc.isValid →
      (rc.afterSetDimensions w h).isValid) ∧
    (∀ (t : Triangle) (a b c : ℝ), t.isValid → (t.afterSetSides a b c).isValid) ∧
    (∀ (g : GeometryCalculator) (o : Option Shape) (s : Shape),
      s ∈ (g.addShape o).shapes_ → s ∈ g.shapes_ ∨ s.isValid) := by
  refine ⟨?_, ?_, ?_, ?_, ?_, ?_, ?_⟩
  · intro r c hok
    unfold Circle.make at hok
    by_cases h1 : r ≤ 0
    · rw [if_pos h1] at hok; exact Except.noConfusion hok
    · rw [if_neg h1] at hok
      injection hok with h
      subst h
      exact not_le.mp h1
  · intro w h rc hok
    unfold Rectangle.make at hok
    by_cases h1 : w ≤ 0 ∨ h ≤ 0
    · rw [if_pos h1] at hok; exact Except.noConfusion hok
    · rw [if_neg h1] at hok
      injection hok with hh
      subst hh
      push_neg at h1
      exact ⟨h1.1, h1.2⟩
  · intro a b c t hok
    unfold Triangle.make at hok
    by_cases h1 : a ≤ 0 ∨ b ≤ 0 ∨ c ≤ 0
    · rw [if_pos h1] at hok; exact Except.noConfusion hok
    · rw [if_neg h1] at hok
      by_cases h2 : (Triangle.mk a b c).satisfiesTriangleInequality
      · rw [if_neg (not_not_intro h2)] at hok
        injection hok with hh
        subst hh
        push_neg at h1
        exact ⟨h1.1, h1.2.1, h1.2.2, h2⟩
      · rw [if_pos h2] at hok; exact Except.noConfusion hok
  · intro c r hc
    unfold Circle.afterSetRadius Circle.setRadius
    by_cases h1 : r ≤ 0
    · rw [if_pos h1]; exact hc
    · rw [if_neg h1]; exact not_le.mp h1
  · intro rc w h hrc
    unfold Rectangle.afterSetDimensions Rectangle.setDimensions
    by_cases h1 : w ≤ 0 ∨ h ≤ 0
    · rw [if_pos h1]; exact hrc
    · rw [if_neg h1]
      push_neg at h1
      exact ⟨h1.1, h1.2⟩
  · intro t a b c ht
    unfold Triangle.afterSetSides Triangle.setSides
    by_cases h1 : a ≤ 0 ∨ b ≤ 0 ∨ c ≤ 0
    · rw [if_pos h1]; exact ht
    · rw [if_neg h1]
      by_cases h2 : a + b ≤ c ∨ b + c ≤ a ∨ a + c ≤ b
      · rw [if_pos h2]; exact ht
      · rw [if_neg h2]
        push_neg at h1 h2
        exact ⟨h1.1, h1.2.1, h1.2.2, h2.1, h2.2.1, h2.2.2⟩
  · intro g o s hs
    cases o with
    | none => exact Or.inl hs
    | some s0 =>
      by_cases hv : s0.isValid
      · have happ : (g.addShape (some s0)).shapes_ = g.shapes_ ++ [s0] := by
          simp only [GeometryCalculator.addShape, if_pos hv]
        rw [happ] at hs
        rcases List.mem_append.mp hs with hmem | hmem
        · exact Or.inl hmem
        · refine Or.inr ?_
          rw [List.mem_singleton.mp hmem]
          exact hv
      · have hid : g.addShape (some s0) = g := by
          simp only [GeometryCalculator.addShape, if_neg hv]
        rw [hid] at hs
        exact Or.inl hs

/-- Witness for C3: `Triangle 3 4 5` is valid and stays valid after
`setSides 6 7 8`. -/
theorem validity_invariant_witness :
    Triangle.isValid ⟨3, 4, 5⟩ ∧ (Triangle.afterSetSides ⟨3, 4, 5⟩ 6 7 8).isValid := by
  have hv : Triangle.isValid ⟨3, 4, 5⟩ := by
    unfold Triangle.isValid Triangle.satisfiesTriangleInequality
    norm_num
  exact ⟨hv, validity_invariant.2.2.2.2.2.1 ⟨3, 4, 5⟩ 6 7 8 hv⟩

/-! ### C4: the Heron radicand is non-negative on valid triangles -/

/-- C4: for every triangle satisfying the validity invariant, the radicand
`s·(s−a)·(s−b)·(s−c)` with `s = perimeter/2` that `area` passes to the
square root is non-negative, so no clamping is needed. -/
theorem heron_radicand_nonneg (t : Triangle) (ht : t.isValid) :
    0 ≤ t.perimeter / 2 * (t.perimeter / 2 - t.side_a_) *
      (t.perimeter / 2 - t.side_b_) * (t.perimeter / 2 - t.side_c_) := by
  obtain ⟨ha, hb, hc, hab, hbc, hac⟩ := ht
  unfold Triangle.perimeter
  have hs : 0 < (t.side_a_ + t.side_b_ + t.side_c_) / 2 := by linarith
  have hsa : 0 < (t.side_a_ + t.side_b_ + t.side_c_) / 2 - t.side_a_ := by
    linarith
  have hsb : 0 < (t.side_a_ + t.side_b_ + t.side_c_) / 2 - t.side_b_ := by
    linarith
  have hsc : 0 < (t.side_a_ + t.side_b_ + t.side_c_) / 2 - t.side_c_ := by
    linarith
  exact le_of_lt (mul_pos (mul_pos (mul_pos hs hsa) hsb) hsc)

/-- Witness for C4 at `Triangle 3 4 5`. -/
theorem heron_radicand_nonneg_witness :
    Triangle.isValid ⟨3, 4, 5⟩ ∧
    0 ≤ Triangle.perimeter ⟨3, 4, 5⟩ / 2 *
      (Triangle.perimeter ⟨3, 4, 5⟩ / 2 - (3 : ℝ)) *
      (Triangle.perimeter ⟨3, 4, 5⟩ / 2 - (4 : ℝ)) *
      (Triangle.perimeter ⟨3, 4, 5⟩ / 2 - (5 : ℝ)) := by
  have hv : Triangle.isValid ⟨3, 4, 5⟩ := by
    unfold Triangle.isValid Triangle.satisfiesTriangleInequality
    norm_num
  exact ⟨hv, heron_radicand_nonneg ⟨3, 4, 5⟩ hv⟩

/-! ### C5: triangle classification -/

/-- C5 (amended): for every valid triangle, `isEquilateral` holds exactly
when the two adjacent side pairs agree within `epsilon` (`|a−b| < ε` and
`|b−c| < ε` — not all three pairs), `isIsosceles` holds exactly when some
pair agrees within `epsilon`, equilateral implies isosceles, and `name`
returns the three classification strings accordingly, recomputed from the
current sides. -/
theorem triangle_classification (t : Triangle) (_ht : t.isValid) :
    (t.isEquilateral ↔
      |t.side_a_ - t.side_b_| < epsilon ∧ |t.side_b_ - t.side_c_| < epsilon) ∧
    (t.isIsosceles ↔
      |t.side_a_ - t.side_b_| < epsilon ∨ |t.side_b_ - t.side_c_| < epsilon ∨
      |t.side_a_ - t.side_c_| < epsilon) ∧
    (t.isEquilateral → t.isIsosceles) ∧
    (t.name = "Equilateral Triangle" ↔ t.isEquilateral) ∧
    (t.name = "Isosceles Triangle" ↔ (t.isIsosceles ∧ ¬ t.isEquilateral)) ∧
    (t.name = "Scalene Triangle" ↔ ¬ t.isIsosceles) := by
  have himp : t.isEquilateral → t.isIsosceles := fun he => Or.inl he.1
  refine ⟨Iff.rfl, Iff.rfl, himp, ?_, ?_, ?_⟩
  · unfold Triangle.name
    by_cases he : t.isEquilateral
    · rw [if_pos he]; exact iff_of_true rfl he
    · rw [if_neg he]
      by_cases hi : t.isIsosceles
      · rw [if_pos hi]; exact iff_of_false (by decide) he
      · rw [if_neg hi]; exact iff_of_false (by decide) he
  · unfold Triangle.name
    by_cases he : t.isEquilateral
    · rw [if_pos he]
      exact iff_of_false (by decide) (fun hcon => hcon.2 he)
    · rw [if_neg he]
      by_cases hi : t.isIsosceles
      · rw [if_pos hi]; exact iff_of_true rfl ⟨hi, he⟩
      · rw [if_neg hi]
        exact iff_of_false (by decide) (fun hcon => hi hcon.1)
  · unfold Triangle.name
    by_cases he : t.isEquilateral
    · rw [if_pos he]
      exact iff_of_false (by decide) (not_not_intro (himp he))
    · rw [if_neg he]
      by_cases hi : t.isIsosceles
      · rw [if_pos hi]; exact iff_of_false (by decide) (not_not_intro hi)
      · rw [if_neg hi]; exact iff_of_true rfl hi

/-- Witness for C5 at `Triangle 5 5 6`: valid, isosceles but not
equilateral, named "Isosceles Triangle". -/
theorem triangle_classification_witness :
    Triangle.isValid ⟨5, 5, 6⟩ ∧
    Triangle.name ⟨5, 5, 6⟩ = "Isosceles Triangle" := by
  have hv : Triangle.isValid ⟨5, 5, 6⟩ := by
    unfold Triangle.isValid Triangle.satisfiesTriangleInequality
    norm_num
  have hi : Triangle.isIsosceles ⟨5, 5, 6⟩ := by
    unfold Triangle.isIsosceles epsilon
    norm_num
  have he : ¬ Triangle.isEquilateral ⟨5, 5, 6⟩ := by
    unfold Triangle.isEquilateral epsilon
    intro hcon
    have h2 := hcon.2
    rw [abs_sub_comm, abs_of_nonneg (by norm_num)] at h2
    norm_num at h2
  exact ⟨hv, ((triangle_classification ⟨5, 5, 6⟩ hv).2.2.2.2.1).mpr ⟨hi, he⟩⟩

/-- C5 counterexample: the triangle with sides `1`, `1 + 7·10⁻¹⁰`,
`1 + 14·10⁻¹⁰` is valid and `isEquilateral` returns true, yet the sides are
not all pairwise equal within `epsilon`: `|a − c| = 1.4·10⁻⁹ ≥ ε`.  So
"all three sides equal within tolerance ε" does not characterise
`isEquilateral`, which only compares the two adjacent pairs. -/
theorem equilateral_tolerance_gap :
    Triangle.isValid ⟨1, 1 + 7 / 10 ^ 10, 1 + 14 / 10 ^ 10⟩ ∧
    Triangle.isEquilateral ⟨1, 1 + 7 / 10 ^ 10, 1 + 14 / 10 ^ 10⟩ ∧
    ¬ Triangle.allSidesEqualWithinEps ⟨1, 1 + 7 / 10 ^ 10, 1 + 14 / 10 ^ 10⟩ := by
  refine ⟨?_, ?_, ?_⟩
  · unfold Triangle.isValid Triangle.satisfiesTriangleInequality
    norm_num
  · unfold Triangle.isEquilateral epsilon
    constructor
    · rw [abs_sub_comm, abs_of_nonneg (by norm_num)]
      norm_num
    · rw [abs_sub_comm, abs_of_nonneg (by norm_num)]
      norm_num
  · unfold Triangle.allSidesEqualWithinEps epsilon
    intro hcon
    have h3 := hcon.2.2
    rw [abs_sub_comm, abs_of_nonneg (by norm_num)] at h3
    norm_num at h3

/-! ### C6: the computed area and perimeter formulas -/

/-- C6: the computed values equal the spec formulas — `Circle`: `π·r²` and
`2π·r`; `Rectangle`: `w·h` and `2·(w+h)`; `Triangle`: `a+b+c` and Heron's
formula with `s = perimeter/2`; in particular `Triangle 3 4 5` has
perimeter 12 and area exactly 6, hence within `1e-9` of 6. -/
theorem shape_formulas (c : Circle) (rc : Rectangle) (t : Triangle) :
    c.area = Real.pi * c.radius_ ^ 2 ∧
    c.perimeter = 2 * Real.pi * c.radius_ ∧
    rc.area = rc.width_ * rc.height_ ∧
    rc.perimeter = 2 * (rc.width_ + rc.height_) ∧
    t.perimeter = t.side_a_ + t.side_b_ + t.side_c_ ∧
    t.area = Real.sqrt (t.perimeter / 2 * (t.perimeter / 2 - t.side_a_) *
      (t.perimeter / 2 - t.side_b_) * (t.perimeter / 2 - t.side_c_)) ∧
    Triangle.perimeter ⟨3, 4, 5⟩ = 12 ∧
    Triangle.area ⟨3, 4, 5⟩ = 6 ∧
    |Triangle.area ⟨3, 4, 5⟩ - 6| < 1e-9 := by
  have hp : Triangle.perimeter ⟨3, 4, 5⟩ = 12 := by
    unfold Triangle.perimeter
    norm_num
  have ha : Triangle.area ⟨3, 4, 5⟩ = 6 := by
    unfold Triangle.area Triangle.perimeter
    norm_num
    rw [show (36 : ℝ) = 6 ^ 2 by norm_num, Real.sqrt_sq (by norm_num)]
  refine ⟨?_, rfl, rfl, rfl, rfl, rfl, hp, ha, ?_⟩
  · unfold Circle.area
    ring
  · rw [ha]
    norm_num

/-! ### C7: insert appends exactly when present and valid -/

/-- C7: `addShape` appends the shape at the end of the owned sequence
exactly when the argument is present and valid; an absent or invalid shape
leaves the calculator completely unchanged (a silent no-op, no error). -/
theorem addShape_appends_iff_valid (g : GeometryCalculator) (o : Option Shape) :
    (∀ s, o = some s → s.isValid → (g.addShape o).shapes_ = g.shapes_ ++ [s]) ∧
    (∀ s, o = some s → ¬ s.isValid → g.addShape o = g) ∧
    (o = none → g.addShape o = g) := by
  refine ⟨?_, ?_, ?_⟩
  · rintro s rfl hv
    simp only [GeometryCalculator.addShape, if_pos hv]
  · rintro s rfl hv
    simp only [GeometryCalculator.addShape, if_neg hv]
  · rintro rfl
    rfl

/-- Witness for C7: inserting the valid `Circle 2` into the empty
calculator appends it. -/
theorem addShape_appends_iff_valid_witness :
    Shape.isValid (Shape.circle ⟨2⟩) ∧
    (GeometryCalculator.empty.addShape (some (Shape.circle ⟨2⟩))).shapes_ =
      GeometryCalculator.empty.shapes_ ++ [Shape.circle ⟨2⟩] := by
  have hv : Shape.isValid (Shape.circle ⟨2⟩) := by
    norm_num [Shape.isValid, Circle.isValid]
  exact ⟨hv, (addShape_appends_iff_valid GeometryCalculator.empty
    (some (Shape.circle ⟨2⟩))).1 _ rfl hv⟩

/-! ### C8: totals are sums over the stored shapes -/

theorem foldl_add_eq (f : Shape → ℝ) :
    ∀ (l : List Shape) (x : ℝ),
      l.foldl (fun total s => total + f s) x = x + (l.map f).sum := by
  intro l
  induction l with
  | nil => intro x; simp
  | cons hd tl ih =>
      intro x
      rw [List.foldl_cons, ih, List.map_cons, List.sum_cons]
      ring

/-- C8: `totalArea` is the sum of `area` over the stored shapes in
insertion order, `totalPerimeter` the analogous sum of `perimeter`, and the
empty calculator has count 0 and both totals 0. -/
theorem totals_are_sums (g : GeometryCalculator) :
    g.totalArea = (g.shapes_.map Shape.area).sum ∧
    g.totalPerimeter = (g.shapes_.map Shape.perimeter).sum ∧
    GeometryCalculator.empty.shapeCount = 0 ∧
    GeometryCalculator.empty.totalArea = 0 ∧
    GeometryCalculator.empty.totalPerimeter = 0 := by
  refine ⟨?_, ?_, rfl, rfl, rfl⟩
  · unfold GeometryCalculator.totalArea
    rw [foldl_add_eq, zero_add]
  · unfold GeometryCalculator.totalPerimeter
    rw [foldl_add_eq, zero_add]

/-! ### C9: indexed lookup -/

/-- C9: `getShape i` returns the shape stored at zero-based position `i`
when `i < shapeCount`, and `none` (absent, not an error) exactly when `i`
is out of range. -/
theorem getShape_spec (g : GeometryCalculator) (i : ℕ) :
    (∀ h : i < g.shapeCount, g.getShape i = some (g.shapes_.get ⟨i, h⟩)) ∧
    (g.shapeCount ≤ i → g.getShape i = none) := by
  constructor
  · intro h
    unfold GeometryCalculator.getShape
    rw [dif_neg (show ¬ i ≥ g.shapes_.length from not_le.mpr h)]
  · intro h
    unfold GeometryCalculator.getShape
    rw [dif_pos (show i ≥ g.shapes_.length from h)]

/-- Witness for C9 on a one-element calculator: index 0 is returned, index
1 is absent. -/
theorem getShape_spec_witness :
    GeometryCalculator.getShape ⟨[Shape.circle ⟨1⟩]⟩ 0 = some (Shape.circle ⟨1⟩) ∧
    GeometryCalculator.getShape ⟨[Shape.circle ⟨1⟩]⟩ 1 = none := by
  have h0 := (getShape_spec ⟨[Shape.circle ⟨1⟩]⟩ 0).1 Nat.one_pos
  have h1 := (getShape_spec ⟨[Shape.circle ⟨1⟩]⟩ 1).2 (le_refl 1)
  exact ⟨h0, h1⟩

/-! ### C10: the algebra of insertion -/

/-- C10: inserting a present valid shape increments the count by one and
adds the shape's `area`/`perimeter` to the respective total; inserting an
absent or invalid shape changes nothing. -/
theorem addShape_algebra (g : GeometryCalculator) (s : Shape) :
    (s.isValid →
      (g.addShape (some s)).shapeCount = g.shapeCount + 1 ∧
      (g.addShape (some s)).totalArea = g.totalArea + s.area ∧
      (g.addShape (some s)).totalPerimeter = g.totalPerimeter + s.perimeter) ∧
    (¬ s.isValid → g.addShape (some s) = g) ∧
    g.addShape none = g := by
  refine ⟨?_, ?_, rfl⟩
  · intro hv
    have happ : (g.addShape (some s)).shapes_ = g.shapes_ ++ [s] := by
      simp only [GeometryCalculator.addShape, if_pos hv]
    refine ⟨?_, ?_, ?_⟩
    · unfold GeometryCalculator.shapeCount
      rw [happ, List.length_append, List.length_singleton]
    · unfold GeometryCalculator.totalArea
      rw [happ, foldl_add_eq, foldl_add_eq, List.map_append, List.sum_append]
      simp
    · unfold GeometryCalculator.totalPerimeter
      rw [happ, foldl_add_eq, foldl_add_eq, List.map_append, List.sum_append]
      simp
  · intro hv
    simp only [GeometryCalculator.addShape, if_neg hv]

/-- Witness for C10: inserting the valid `Circle 1` into the empty
calculator increments the count from 0 to 1. -/
theorem addShape_algebra_witness :
    Shape.isValid (Shape.circle ⟨1⟩) ∧
    (GeometryCalculator.empty.addShape (some (Shape.circle ⟨1⟩))).shapeCount =
      GeometryCalculator.empty.shapeCount + 1 := by
  have hv : Shape.isValid (Shape.circle ⟨1⟩) := by
    norm_num [Shape.isValid, Circle.isValid]
  exact ⟨hv, ((addShape_algebra GeometryCalculator.empty (Shape.circle ⟨1⟩)).1 hv).1⟩

end Geometry
